import Mathlib

/-!
# A shallow embedding of the function-to-node adaptation engine

This file embeds the core of `src/easy_nodes/easy_nodes.py` (the
function-to-node adaptation engine of the repository) in Lean and proves
properties about it.

Modelling conventions used throughout:

* Python runtime values are modelled by the inductive `Val` (None, bools,
  ints, floats, strings, lists, tuples, string-keyed dicts).  Tensors are
  outside the modelled value universe, so the tensor-moving helper
  `_move_all_tensors_to_device` is the identity it is on non-tensor values,
  and the MASK unsqueeze special case in the call wrapper is a no-op.
* Python floats that occur as widget numbers are modelled by `ℚ`.
* Python dicts keyed by strings are association lists with
  insert-or-update semantics (`dictInsert`) preserving insertion order,
  exactly like CPython dicts.
* Raising an exception is modelled by `Except`: `Except String` for the
  helpers that raise a single kind of error, `Except PyErr` for the call
  path, where `PyErr` records the exception class, its message, the length
  of its traceback and the `num_interesting_levels` annotation.
* The CPython `hash` of an `int` reduces the argument modulo `2^61 - 1`
  (preserving sign, with `-1` mapped to `-2`); `hash(float("nan"))` is some
  unspecified `int` (id-based on CPython >= 3.10, `0` before), kept as an
  explicit parameter `nanHash`.
* The Python `^` on ints is twos-complement bitwise xor, which is exactly
  `Int.xor`.
-/

namespace EasyNodes

/-- The Python types that can occur in the embedding.  `tCustom` covers
user-defined classes (identified by module and qualified name). -/
inductive PyType
  | tInt
  | tFloat
  | tBool
  | tStr
  | tNoneType
  | tList
  | tTuple
  | tDict
  | tCustom (module : String) (qual : String)
deriving DecidableEq

/-- `_get_fully_qualified_name` of easy_nodes.py: `cls.__module__ . cls.__qualname__`. -/
def _get_fully_qualified_name : PyType → String
  | .tInt => "builtins.int"
  | .tFloat => "builtins.float"
  | .tBool => "builtins.bool"
  | .tStr => "builtins.str"
  | .tNoneType => "builtins.NoneType"
  | .tList => "builtins.list"
  | .tTuple => "builtins.tuple"
  | .tDict => "builtins.dict"
  | .tCustom m q => m ++ "." ++ q

/-- `cls.__name__` for the modelled types. -/
def pyTypeName : PyType → String
  | .tInt => "int"
  | .tFloat => "float"
  | .tBool => "bool"
  | .tStr => "str"
  | .tNoneType => "NoneType"
  | .tList => "list"
  | .tTuple => "tuple"
  | .tDict => "dict"
  | .tCustom _ q => q

/-- Python `issubclass` on the modelled (flat, aside from `bool <: int`)
type universe. -/
def pySubclass (a b : PyType) : Bool :=
  a = b || (a = .tBool && b = .tInt)

/-- Python runtime values, restricted to the universe the claims exercise. -/
inductive Val
  | vnone
  | vbool (b : Bool)
  | vint (n : Int)
  | vfloat (q : ℚ)
  | vstr (s : String)
  | vlist (xs : List Val)
  | vtuple (xs : List Val)
  | vdict (kvs : List (String × Val))

/-- Python `v is None`. -/
def Val.isNone : Val → Bool
  | .vnone => true
  | _ => false

/-- Python `type(v)` on the modelled values. -/
def pyTypeOf : Val → PyType
  | .vnone => .tNoneType
  | .vbool _ => .tBool
  | .vint _ => .tInt
  | .vfloat _ => .tFloat
  | .vstr _ => .tStr
  | .vlist _ => .tList
  | .vtuple _ => .tTuple
  | .vdict _ => .tDict

/-- Python `isinstance(v, cls)` on the modelled values. -/
def pyIsinstance (v : Val) (cls : PyType) : Bool :=
  pySubclass (pyTypeOf v) cls

/-- A rendering of a value for interpolation into error messages
(`str(v)`); the exact text matters only where a theorem spells a message
out, which happens for ints and strings. -/
def pyStrOf : Val → String
  | .vnone => "None"
  | .vbool b => if b then "True" else "False"
  | .vint n => toString n
  | .vfloat q => toString q
  | .vstr s => s
  | .vlist _ => "[...]"
  | .vtuple _ => "(...)"
  | .vdict _ => "\x7b...\x7d"

/-! ## Association lists standing in for Python dicts -/

/-- Lookup in a string-keyed association list (Python `d.get(k)` / `d[k]`). -/
def dictFind {α : Type} (k : String) : List (String × α) → Option α
  | [] => none
  | (k', v) :: rest => if k' = k then some v else dictFind k rest

/-- `d[k] = v` with CPython dict semantics: update in place if the key is
present, else append at the end. -/
def dictInsert {α : Type} (d : List (String × α)) (k : String) (v : α) : List (String × α) :=
  match d with
  | [] => [(k, v)]
  | (k', v') :: rest => if k' = k then (k, v) :: rest else (k', v') :: dictInsert rest k v

/-- `Python dict-merge of d1 and d2`: entries of `d2` written over `d1`. -/
def dictMerge {α : Type} (d1 d2 : List (String × α)) : List (String × α) :=
  d2.foldl (fun acc p => dictInsert acc p.1 p.2) d1

theorem dictFind_dictInsert_self {α : Type} (d : List (String × α)) (k : String) (v : α) :
    dictFind k (dictInsert d k v) = some v := by
  induction d with
  | nil => simp [dictInsert, dictFind]
  | cons hd tl ih =>
    obtain ⟨k', v'⟩ := hd
    by_cases h : k' = k
    · simp [dictInsert, dictFind, h]
    · simp [dictInsert, dictFind, h, ih]

theorem dictFind_dictInsert_ne {α : Type} (d : List (String × α)) (k k' : String) (v : α)
    (h : k' ≠ k) : dictFind k' (dictInsert d k v) = dictFind k' d := by
  have h' : ¬ (k = k') := fun hh => h hh.symm
  induction d with
  | nil =>
    simp only [dictInsert, dictFind]
    rw [if_neg h']
  | cons hd tl ih =>
    obtain ⟨k₀, v₀⟩ := hd
    by_cases h₀ : k₀ = k
    · subst h₀
      simp only [dictInsert, if_pos rfl, dictFind]
      rw [if_neg h', if_neg h']
    · simp only [dictInsert, if_neg h₀, dictFind]
      by_cases h₁ : k₀ = k'
      · simp [h₁]
      · simp [h₁, ih]

/-! ## Verifiers (`CustomVerifier` and its subclasses) -/

/-- The verifier objects of easy_nodes.py.  `subclassV` is
`SubclassVerifier` (the default "is-instance-compatible-either-direction"
validator), `typeV` is `TypeVerifier`, `anythingV` is `AnythingVerifier`.
`TensorVerifier` checks tensor shapes and is outside the modelled value
universe. -/
inductive Verifier
  | subclassV (cls : PyType)
  | typeV (allowed : List PyType)
  | anythingV
deriving DecidableEq

/-- Running a verifier on a value; `.error` models the verifier raising. -/
def runVerifier : Verifier → Val → Except String Unit
  | .subclassV cls, arg =>
      if pySubclass cls (pyTypeOf arg) || pySubclass (pyTypeOf arg) cls then .ok ()
      else
        .error ("Expected a " ++ pyTypeName cls ++ ", but got received a value (" ++
          pyStrOf arg ++ ") of type " ++ pyTypeName (pyTypeOf arg) ++ ".")
  | .typeV allowed, value =>
      if allowed.any (fun t => pyIsinstance value t) then .ok ()
      else .error ("Expected one of the allowed types, got " ++ pyTypeName (pyTypeOf value))
  | .anythingV, _ => .ok ()

/-! ## The type registry -/

/-- The process-wide type-registry dictionaries of easy_nodes.py. -/
structure Registry where
  /-- `_ANNOTATION_TO_COMFYUI_TYPE`: fully-qualified native type name → port-type name. -/
  annToType : List (String × String)
  /-- `_SHOULD_AUTOCONVERT` (initialised to `{"str": True}` at module load). -/
  shouldAutoconvert : List (String × Bool)
  /-- `_DEFAULT_FORCE_INPUT`. -/
  defaultForceInput : List (String × Bool)
  /-- `_COMFYUI_TYPE_TO_ANNOTATION_CLS`: port-type name → canonical native type. -/
  typeToCls : List (String × PyType)
  /-- `_custom_verifiers`: port-type name → canonical verifier. -/
  verifiers : List (String × Verifier)

/-- The registry dictionaries as initialised at module load time. -/
def initialRegistry : Registry :=
  { annToType := []
    shouldAutoconvert := [("str", true)]
    defaultForceInput := []
    typeToCls := []
    verifiers := [] }

/-- `register_type` of easy_nodes.py.  `afterFirstPrompt` is the global
`_after_first_prompt` latch; `.error` models a failed `assert`. -/
def register_type (reg : Registry) (cls : PyType) (nameArg : Option String)
    (should_autoconvert : Bool) (is_auto_register : Bool) (force_input : Bool)
    (verifier : Option Verifier) (afterFirstPrompt : Bool) : Except String Registry :=
  if afterFirstPrompt then .ok reg
  else
    let name := nameArg.getD (pyTypeName cls)
    let key := _get_fully_qualified_name cls
    if !is_auto_register && (dictFind key reg.annToType).isSome then
      .error ("Type " ++ pyTypeName cls ++ " already registered.")
    else if (dictFind key reg.annToType).isSome then .ok reg
    else
      -- the first registration under `name` becomes canonical for validation;
      -- a later one with a different verifier only logs a warning
      let reg' :=
        if (dictFind name reg.typeToCls).isNone then
          { reg with
              typeToCls := dictInsert reg.typeToCls name cls
              verifiers := dictInsert reg.verifiers name (verifier.getD (.subclassV cls)) }
        else reg
      .ok { reg' with
              annToType := dictInsert reg'.annToType key name
              shouldAutoconvert := dictInsert reg'.shouldAutoconvert key should_autoconvert
              defaultForceInput := dictInsert reg'.defaultForceInput key force_input }

/-- Type annotations as they appear in signatures: absent
(`inspect.Parameter.empty`), a plain type, `list[...]`, or `tuple[...]`. -/
inductive Ann
  | empty
  | ty (t : PyType)
  | listTy (a : Ann)
  | tupleTy (as' : List Ann)

/-- `_get_fully_qualified_name` applied to an annotation object. -/
def annKey : Ann → String
  | .empty => "inspect._empty"
  | .ty t => _get_fully_qualified_name t
  | .listTy _ => "builtins.list"
  | .tupleTy _ => "builtins.tuple"

/-- `get_origin(a) is list`. -/
def annIsList : Ann → Bool
  | .listTy _ => true
  | _ => false

/-- `_get_type_str` of easy_nodes.py: resolve an annotation to a port-type
name, descending into `list[...]`, raising a `ValueError` for an
unregistered non-empty annotation, and yielding the wildcard `"*"`
(`any_type`) for a missing annotation. -/
def _get_type_str (reg : Registry) : Ann → Except String String
  | .listTy inner =>
      match dictFind "builtins.list" reg.annToType with
      | some s => .ok s
      | none => _get_type_str reg inner
  | .empty =>
      match dictFind "inspect._empty" reg.annToType with
      | some s => .ok s
      | none => .ok "*"
  | a =>
      match dictFind (annKey a) reg.annToType with
      | some s => .ok s
      | none => .error ("Type " ++ annKey a ++ " not registered with ComfyUI")

/-! ## The widget / default model -/

/-- A `StringInput` instance: a string tagged with UI metadata. -/
structure StringInputT where
  value : String
  multiline : Bool
  force_input : Bool
  optional : Bool
  hidden : Bool
deriving DecidableEq

/-- `StringInput.to_dict`. -/
def StringInputT.to_dict (si : StringInputT) : List (String × Val) :=
  [("default", .vstr si.value), ("multiline", .vbool si.multiline),
   ("display", .vstr "input"), ("forceInput", .vbool si.force_input)]

/-- A `NumberInput` instance (a float subclass carrying UI metadata). -/
structure NumberInputT where
  default : ℚ
  min : Option ℚ
  max : Option ℚ
  step : Option ℚ
  round : Option ℚ
  display : String
  optional : Bool
  hidden : Bool
  force_input : Bool
deriving DecidableEq

/-- `NumberInput.__new__`: construction fails with a `ValueError` when the
default lies outside an explicitly given bound (min checked first). -/
def NumberInput_new (default : ℚ) (minB maxB stepB roundB : Option ℚ) (display : String)
    (optional hidden force_input : Bool) : Except String NumberInputT :=
  if minB.any (fun m => default < m) then
    .error ("Value " ++ toString default ++ " is less than the minimum allowed.")
  else if maxB.any (fun m => m < default) then
    .error ("Value " ++ toString default ++ " is greater than the maximum allowed.")
  else
    .ok ⟨default, minB, maxB, stepB, roundB, display, optional, hidden, force_input⟩

/-- `NumberInput.to_dict`: the descriptor keeps only the non-`None` fields,
in the dict-literal order default, display, min, max, step, round,
forceInput. -/
def NumberInputT.to_dict (ni : NumberInputT) : List (String × Val) :=
  ([("default", some (Val.vfloat ni.default)),
    ("display", some (Val.vstr ni.display)),
    ("min", ni.min.map Val.vfloat),
    ("max", ni.max.map Val.vfloat),
    ("step", ni.step.map Val.vfloat),
    ("round", ni.round.map Val.vfloat),
    ("forceInput", some (Val.vbool ni.force_input))] :
      List (String × Option Val)).filterMap
    (fun p => p.2.map (fun v => (p.1, v)))

/-- The default value attached to a declared parameter, as
`_annotate_input` distinguishes them: no default at all
(`inspect.Parameter.empty`), an explicit `None`, a `Choice`, a widget
instance, a plain primitive (promoted to a widget), or any other value. -/
inductive DefaultVal
  | empty
  | noneV
  | choice (choices : List String)
  | stringInput (si : StringInputT)
  | numberInput (ni : NumberInputT)
  | strV (s : String)
  | intV (n : Int)
  | floatV (q : ℚ)
  | otherV (v : Val)

/-- `default != inspect.Parameter.empty`. -/
def DefaultVal.isGiven : DefaultVal → Bool
  | .empty => false
  | _ => true

/-- The runtime value a non-widget default denotes (used for the
`metadata["default"]` entry). -/
def DefaultVal.toVal : DefaultVal → Val
  | .empty => .vnone
  | .noneV => .vnone
  | .choice cs => .vlist (cs.map Val.vstr)
  | .stringInput si => .vstr si.value
  | .numberInput ni => .vfloat ni.default
  | .strV s => .vstr s
  | .intV n => .vint n
  | .floatV q => .vfloat q
  | .otherV v => v

/-- What `_annotate_input` returns as its first component: either the
1-tuple `(default.choices,)` for a `Choice` default, or the pair
`(type_name, metadata)`. -/
inductive PortSpec
  | choices (cs : List String)
  | typed (typeName : String) (metadata : List (String × Val))

/-- `the_param[0]` as it is consumed by `_verify_values` and
`maybe_autoconvert`: a choice list or a port-type name. -/
inductive PortT
  | ptChoices (cs : List String)
  | ptName (s : String)

/-- `spec[0]`. -/
def PortSpec.portT : PortSpec → PortT
  | .choices cs => .ptChoices cs
  | .typed n _ => .ptName n

/-- `_annotate_input` of easy_nodes.py: resolve the annotation, promote
plain primitive defaults to widgets, and produce
`(the_param, is_optional, is_hidden)`. -/
def _annotate_input (reg : Registry) (ann : Ann) (default : DefaultVal) :
    Except String (PortSpec × Bool × Bool) := do
  let type_name ← _get_type_str reg ann
  match default with
  | .choice cs => return (.choices cs, false, false)
  | d0 =>
    -- plain primitives are promoted to widgets with default settings
    let d ← (match d0 with
      | .strV s => pure (DefaultVal.stringInput ⟨s, false, false, false, false⟩)
      | .intV n => do
          let ni ← NumberInput_new (n : ℚ) none none none none "number" false false false
          pure (DefaultVal.numberInput ni)
      | .floatV q => do
          let ni ← NumberInput_new q none none none none "number" false false false
          pure (DefaultVal.numberInput ni)
      | d => pure d)
    match d with
    | .stringInput si => return (.typed type_name si.to_dict, si.optional, si.hidden)
    | .numberInput ni => return (.typed type_name ni.to_dict, ni.optional, ni.hidden)
    | d =>
      let metadata : List (String × Val) :=
        match d with
        | .noneV => [("optional", .vbool true), ("forceInput", .vbool true)]
        | .empty => [("forceInput", .vbool true)]
        | dv => [("default", dv.toVal)]
      let metadata :=
        if (dictFind (annKey ann) reg.defaultForceInput).getD false then
          dictInsert metadata "forceInput" (.vbool true)
        else metadata
      return (.typed type_name metadata, d.isGiven, false)

/-- An entry of the hidden-inputs dict: the two reserved host ports map to
bare port-type names, user-declared hidden widgets to full specs. -/
inductive HiddenSpec
  | reserved (s : String)
  | spec (p : PortSpec)

/-- The output of `_infer_input_types_from_annotations`. -/
structure InferredInputs where
  required : List (String × PortSpec)
  hidden : List (String × HiddenSpec)
  optional : List (String × PortSpec)
  inputIsList : List (String × Bool)
  inputTypeMap : List (String × Ann)

/-- `_infer_input_types_from_annotations` of easy_nodes.py.  A parameter is
a `(name, annotation, default)` triple; `skipFirst` skips a bound
`self`/`cls` parameter. -/
def _infer_input_types_from_annotations (reg : Registry)
    (params : List (String × Ann × DefaultVal)) (skipFirst : Bool) :
    Except String InferredInputs := do
  let params := if skipFirst then params.drop 1 else params
  let mut required : List (String × PortSpec) := []
  let mut hidden : List (String × HiddenSpec) :=
    [("unique_id", .reserved "UNIQUE_ID"), ("extra_pnginfo", .reserved "EXTRA_PNGINFO")]
  let mut optional : List (String × PortSpec) := []
  let mut inputIsList : List (String × Bool) := []
  let mut typeMap : List (String × Ann) := []
  for p in params do
    let (param_name, ann, default) := p
    inputIsList := dictInsert inputIsList param_name (annIsList ann)
    typeMap := dictInsert typeMap param_name ann
    let (the_param, is_optional, is_hidden) ← _annotate_input reg ann default
    if param_name = "unique_id" ∨ param_name = "extra_pnginfo" then
      pure ()
    else if !is_optional then
      required := dictInsert required param_name the_param
    else if is_hidden then
      hidden := dictInsert hidden param_name (.spec the_param)
    else
      optional := dictInsert optional param_name the_param
  return ⟨required, hidden, optional, inputIsList, typeMap⟩

/-- The source `_infer_return_types_from_annotations` accepts either a
function (whose return annotation is inspected) or a plain list of types
(the caller-supplied `return_types`). -/
inductive RetSrc
  | fromList (ts : List Ann)
  | fromAnn (a : Ann)

/-- One tuple element of the return shape: `list[T]` yields a sequence
output of the port type of `T`, anything else a scalar output. -/
def retElem (reg : Registry) (a : Ann) : Except String (String × Bool) :=
  match a with
  | .listTy inner => do
      let s ← _get_type_str reg inner
      return (s, true)
  | a => do
      let s ← _get_type_str reg a
      return (s, false)

/-- `_infer_return_types_from_annotations` of easy_nodes.py, producing the
port-type names and the per-output is-list flags. -/
def _infer_return_types_from_annotations (reg : Registry) (src : RetSrc) :
    Except String (List String × List Bool) := do
  match src with
  | .fromList return_args =>
      -- a directly provided list is treated like a tuple annotation
      let pairs ← return_args.mapM (retElem reg)
      return (pairs.map Prod.fst, pairs.map Prod.snd)
  | .fromAnn retAnn =>
      match retAnn with
      | .tupleTy return_args =>
          let pairs ← return_args.mapM (retElem reg)
          return (pairs.map Prod.fst, pairs.map Prod.snd)
      | .listTy inner => do
          let s ← _get_type_str reg inner
          return ([s], [true])
      | .empty => return ([], [])
      | a => do
          let s ← _get_type_str reg a
          return ([s], [false])

/-- The parts of the schema that the `ComfyNode` decorator computes before
building the node class. -/
structure NodeSchema where
  required : List (String × PortSpec)
  hidden : List (String × HiddenSpec)
  optional : List (String × PortSpec)
  inputIsListMap : List (String × Bool)
  inputIsList : Bool
  returnTypes : List String
  outputIsList : List Bool
  isOutputNode : Bool

/-- The schema computation of the `ComfyNode` decorator (easy_nodes.py
lines 865-899): input inference, return inference (caller-supplied
`return_types` overriding the annotation), the `return_names` arity
assert, and the auto-promotion of zero-output nodes to output nodes. -/
def ComfyNode_schema (reg : Registry) (params : List (String × Ann × DefaultVal))
    (retAnn : Ann) (returnTypesArg : Option (List Ann)) (returnNamesArg : Option (List String))
    (is_output_node : Bool) (isMember : Bool) : Except String NodeSchema := do
  let inf ← _infer_input_types_from_annotations reg params isMember
  let (adjusted_return_types, output_is_list) ←
    match returnTypesArg with
    | some ts => _infer_return_types_from_annotations reg (.fromList ts)
    | none => _infer_return_types_from_annotations reg (.fromAnn retAnn)
  if let some ns := returnNamesArg then
    if ns.length ≠ adjusted_return_types.length then
      throw "Number of output names must match number of return types."
  let force_output := adjusted_return_types.length = 0
  let input_is_list := inf.inputIsList.any (fun p => p.2)
  return ⟨inf.required, inf.hidden, inf.optional, inf.inputIsList, input_is_list,
    adjusted_return_types, output_is_list, is_output_node || force_output⟩

/-! ## Preview side channel -/

/-- The process-wide `_curr_preview` dict (keys `"images"` / `"text"`,
values lists). -/
abbrev Preview := List (String × Val)

/-- `show_text` of easy_nodes.py: append a text entry to the preview
buffer. -/
def show_text (pv : Preview) (text : String) : Preview :=
  let pv := if (dictFind "text" pv).isNone then dictInsert pv "text" (.vlist []) else pv
  match dictFind "text" pv with
  | some (.vlist xs) => dictInsert pv "text" (.vlist (xs ++ [.vstr text]))
  | _ => pv

/-! ## Exceptions and configuration -/

/-- The class of a raised Python exception. -/
inductive ErrKind
  | assertionError
  | valueError
  | keyError
  | raisedByFunction
deriving DecidableEq

/-- A raised Python exception: its class, message, traceback length, and
the `num_interesting_levels` attribute the call wrapper attaches before
re-raising. -/
structure PyErr where
  kind : ErrKind
  msg : String
  stackLen : Nat
  numInterestingLevels : Option Int
deriving DecidableEq

/-- `e.num_interesting_levels = len(the_stack) - 1`, set just before the
call wrapper re-raises an exhausted exception. -/
def annotateErr (e : PyErr) : PyErr :=
  { e with numInterestingLevels := some ((e.stackLen : Int) - 1) }

/-- `CheckSeverityMode`. -/
inductive CheckSeverityMode
  | off
  | warn
  | fatal
deriving DecidableEq

/-- The fields of `EasyNodesConfig` the call path reads. -/
structure ENConfig where
  verify_level : CheckSeverityMode
  auto_move_tensors : Bool
deriving DecidableEq

/-- The external key-value configuration collaborator (`config_service`),
restricted to the keys this core reads, with their documented defaults:
`easy_nodes.llm_debugging` = "Off", `easy_nodes.max_tries` = 1,
`easy_nodes.ReloadOnEdit` = False. -/
structure ConfigService where
  llm_debugging : String
  max_tries : Int
  reloadOnEdit : Bool
deriving DecidableEq

/-- Python `==` between a `bool` and a `str` is always `False` (they are
unrelated types with default equality). -/
def pyBoolEqStr (_b : Bool) (_s : String) : Bool := false

/-- `llm_debugging_enabled = config_service.get_config_value("easy_nodes.llm_debugging", "Off") != "Off"`. -/
def llm_debugging_enabled (cfg : ConfigService) : Bool :=
  cfg.llm_debugging ≠ "Off"

/-- The `max_tries` computation of `_call_function_and_verify_result`:
`int(get_config_value("easy_nodes.max_tries", 1)) if llm_debugging_enabled == "AutoFix" else 1`.
Note the guard compares the *boolean* `llm_debugging_enabled` with the
string `"AutoFix"`. -/
def computedMaxTries (cfg : ConfigService) : Int :=
  if pyBoolEqStr (llm_debugging_enabled cfg) "AutoFix" then cfg.max_tries else 1

/-! ## The verification engine -/

mutual

/-- `recursive_verify` of `_verify_values`: descend into (Python) lists,
apply the verifier to each leaf. -/
def recursive_verify (ver : Verifier) : Val → Except String Unit
  | .vlist vs => recursive_verify_list ver vs
  | v => runVerifier ver v

/-- Verification of every element of a list value. -/
def recursive_verify_list (ver : Verifier) : List Val → Except String Unit
  | [] => .ok ()
  | v :: rest => do
      recursive_verify ver v
      recursive_verify_list ver rest

end

/-- The parameter name wrapped in single quotes, as the f-string in
`_verify_values` formats it. -/
def quotedName (s : String) : String := "\x27" ++ s ++ "\x27"

/-- The diagnostic `_verify_values` formats before warning or raising:
`f"Error verifying {list_type} {param_name}: {str(e)}\n{code_origin_loc}"`. -/
def verifyErrorStr (list_type param_name e code_origin_loc : String) : String :=
  "Error verifying " ++ list_type ++ " " ++ param_name ++ ": " ++ e ++ "\n" ++ code_origin_loc

/-- The loop body of `_verify_values`, over the `zip` of values and
declared types (the call sites always pass lists of equal length).
`names` is `None` for anonymous outputs; Python would use `names[i]`,
modelled by `getD` since callers pass name lists matching the values. -/
def verifyLoop (reg : Registry) (cfg : ENConfig) (list_type : String)
    (names : Option (List String)) (code_origin_loc : String) :
    Nat → List (Val × PortT) → Except String Unit
  | _, [] => .ok ()
  | i, (val, param_type) :: rest =>
    match param_type with
    | .ptChoices _ => verifyLoop reg cfg list_type names code_origin_loc (i + 1) rest
    | .ptName tname =>
      if val.isNone then verifyLoop reg cfg list_type names code_origin_loc (i + 1) rest
      else
        let param_name :=
          match names with
          | some ns => quotedName (ns.getD i "")
          | none => list_type ++ "_" ++ toString i
        match dictFind tname reg.verifiers with
        | some verifier =>
          if cfg.verify_level = .warn ∨ cfg.verify_level = .fatal then
            match recursive_verify verifier val with
            | .ok _ => verifyLoop reg cfg list_type names code_origin_loc (i + 1) rest
            | .error e =>
              if cfg.verify_level = .fatal then
                .error (verifyErrorStr list_type param_name e code_origin_loc)
              else verifyLoop reg cfg list_type names code_origin_loc (i + 1) rest
          else verifyLoop reg cfg list_type names code_origin_loc (i + 1) rest
        | none =>
          -- "No verifier for {param_type}. Skipping verification." (warning only)
          verifyLoop reg cfg list_type names code_origin_loc (i + 1) rest

/-- `_verify_values` of easy_nodes.py. -/
def _verify_values (reg : Registry) (cfg : ENConfig) (list_type : String)
    (pairs : List (Val × PortT)) (names : Option (List String)) (code_origin_loc : String) :
    Except String Unit :=
  verifyLoop reg cfg list_type names code_origin_loc 0 pairs

/-! ## Autoconversion and tensor movement -/

/-- Calling the constructor of a registered class on a value
(`comfyui_type(arg)` in `maybe_autoconvert`), on the modelled universe;
unmodelled constructors raise. -/
def pyConstructCall (cls : PyType) (v : Val) : Except PyErr Val :=
  match cls, v with
  | .tStr, v => .ok (.vstr (pyStrOf v))
  | .tInt, .vint n => .ok (.vint n)
  | .tInt, .vbool b => .ok (.vint (if b then 1 else 0))
  | .tInt, .vfloat q => .ok (.vint q.floor)
  | .tFloat, .vint n => .ok (.vfloat (n : ℚ))
  | .tFloat, .vfloat q => .ok (.vfloat q)
  | _, _ => .error ⟨.raisedByFunction, "unmodelled constructor call", 1, none⟩

/-- `maybe_autoconvert` of easy_nodes.py.  Looks the port-type *name* up in
`_SHOULD_AUTOCONVERT` (which `register_type` keys by fully-qualified native
type name); a missing `_COMFYUI_TYPE_TO_ANNOTATION_CLS` entry would be a
`KeyError`. -/
def maybe_autoconvert (reg : Registry) (comfyui_type_name : PortT) (arg : Val) :
    Except PyErr Val :=
  match comfyui_type_name with
  | .ptChoices _ => .ok arg
  | .ptName name =>
    if (dictFind name reg.shouldAutoconvert).getD false then
      match dictFind name reg.typeToCls with
      | some cls =>
        match arg with
        | .vlist xs => do
            let xs' ← xs.mapM (pyConstructCall cls)
            return .vlist xs'
        | a => pyConstructCall cls a
      | none => .error ⟨.keyError, name, 1, none⟩
    else .ok arg

mutual

/-- `_move_all_tensors_to_device`: moves tensors, recurses into lists, and
returns everything else unchanged.  The modelled universe contains no
tensors, so this is the identity it is on non-tensor values. -/
def _move_all_tensors_to_device : Val → Val
  | .vlist xs => .vlist (_move_all_tensors_to_device_list xs)
  | v => v

/-- Elementwise recursion of `_move_all_tensors_to_device` into a list. -/
def _move_all_tensors_to_device_list : List Val → List Val
  | [] => []
  | v :: rest => _move_all_tensors_to_device v :: _move_all_tensors_to_device_list rest

end

/-! ## The call wrapper (`_call_function_and_verify_result`) -/

/-- A wrapped implementation as the call wrapper invokes it:
`func(*args, **kwargs)`, with the process-wide preview buffer threaded
explicitly (the function may add entries via `show_text`/`show_image`). -/
abbrev FuncV := List Val → List (String × Val) → Preview → Except PyErr (Val × Preview)

/-- The body of one `try:` iteration of `_call_function_and_verify_result`
(easy_nodes.py lines 638-681): clear the preview buffer, invoke, check the
zero-output contract, check the return arity, verify outputs, autoconvert,
and wrap the result with the preview payload when one was produced.
`pvInit` is the preview buffer left over from earlier activity; the first
statement (`_curr_preview.clear()`) discards it. -/
def attemptBody (reg : Registry) (cfg : ENConfig) (adjusted_return_types : List String)
    (return_names : Option (List String)) (wrapped_name code_origin_loc : String)
    (run : Preview → Except PyErr (Val × Preview)) (pvInit : Preview) : Except PyErr Val :=
  let _ := pvInit
  -- _curr_preview.clear(); result = func(*args, **kwargs)
  match run ([] : Preview) with
  | .error e => .error e
  | .ok (result, pv) =>
    if adjusted_return_types.length = 0 then
      if result.isNone then .ok (.vtuple [.vnone])
      else .error ⟨.assertionError,
        wrapped_name ++ ": Return value is not None, but no return type specified.\n" ++
          code_origin_loc, 1, none⟩
    else
      let resultList := match result with | .vtuple xs => xs | r => [r]
      if resultList.length ≠ adjusted_return_types.length then
        .error ⟨.assertionError,
          wrapped_name ++ ": Number of return values does not match number of return types\n" ++
            code_origin_loc, 1, none⟩
      else
        let new_result :=
          if cfg.auto_move_tensors then _move_all_tensors_to_device_list resultList
          else resultList
        match _verify_values reg cfg "OUTPUT"
            (resultList.zip (adjusted_return_types.map PortT.ptName)) return_names
            code_origin_loc with
        | .error s => .error ⟨.valueError, s, 1, none⟩
        | .ok _ =>
          match (new_result.zip adjusted_return_types).mapM
              (fun p => maybe_autoconvert reg (.ptName p.2) p.1) with
          | .error e => .error e
          | .ok converted =>
            let result := Val.vtuple converted
            -- if preview items were added during this call, wrap the result
            if pv.isEmpty then .ok result
            else .ok (.vdict [("ui", .vdict pv), ("result", result)])

/-- The `while try_count < max_tries` retry loop, by recursion on the
number of remaining attempts; falling out of the loop is the final
`assert False`.  On the last failing attempt the exception is annotated
with its interesting-frame count and re-raised; otherwise the (optional)
repair hook runs for its side effects and the loop retries. -/
def callLoop (reg : Registry) (cfg : ENConfig) (adjusted_return_types : List String)
    (return_names : Option (List String)) (wrapped_name code_origin_loc : String)
    (run : Preview → Except PyErr (Val × Preview)) (pvInit : Preview) :
    Nat → Except PyErr Val
  | 0 => .error ⟨.assertionError, "Should never reach this point", 1, none⟩
  | n + 1 =>
    match attemptBody reg cfg adjusted_return_types return_names wrapped_name
        code_origin_loc run pvInit with
    | .ok v => .ok v
    | .error e =>
      if n = 0 then .error (annotateErr e)
      else callLoop reg cfg adjusted_return_types return_names wrapped_name
        code_origin_loc run pvInit n

/-- `_call_function_and_verify_result` of easy_nodes.py. -/
def _call_function_and_verify_result (reg : Registry) (cfgService : ConfigService)
    (cfg : ENConfig) (adjusted_return_types : List String)
    (return_names : Option (List String)) (wrapped_name code_origin_loc : String)
    (run : Preview → Except PyErr (Val × Preview)) (pvInit : Preview) : Except PyErr Val :=
  callLoop reg cfg adjusted_return_types return_names wrapped_name code_origin_loc run
    pvInit (computedMaxTries cfgService).toNat

/-! ## The live-update tracker -/

/-- The per-function registration record tables, generic in the
implementation-reference type `F` (`_function_dict`, `_function_checksums`,
`_function_update_times`). -/
structure FuncState (F : Type) where
  dict : List (String × F)
  checksums : List (String × Int)
  updateTimes : List (String × Int)

/-- `_register_function` of easy_nodes.py.  When the identity is already
registered, the update must have a strictly newer timestamp and a
different checksum; a violated `assert` is `.error`.  The `getD 0` dict
accesses rely on the registration invariant that the three tables share
their key set. -/
def _register_function {F : Type} (st : FuncState F) (qualname : String) (func : F)
    (checksum timestamp : Int) : Except String (FuncState F) :=
  if (dictFind qualname st.dict).isSome then
    if ¬ ((dictFind qualname st.updateTimes).getD 0 < timestamp) then
      .error ("Function " ++ qualname ++ " already registered with later timestamp!")
    else if (dictFind qualname st.checksums).getD 0 = checksum then
      .error ("Function " ++ qualname ++ " already registered with same checksum!")
    else
      .ok ⟨dictInsert st.dict qualname func, dictInsert st.checksums qualname checksum,
        dictInsert st.updateTimes qualname timestamp⟩
  else
    .ok ⟨dictInsert st.dict qualname func, dictInsert st.checksums qualname checksum,
      dictInsert st.updateTimes qualname timestamp⟩

/-- The file-system facts `_get_latest_version_of_func` consults, abstracted:
the modification time of the owning module file, the attribute looked up on the
reloaded module, and the source-checksum function
(`_compute_function_checksum`). -/
structure ReloadEnv (F : Type) where
  currentModifiedTime : Int
  moduleFunc : Option F
  funcChecksum : F → Int

/-- `_get_latest_version_of_func` of easy_nodes.py: when live reload is
enabled and the module file is newer than the last update of the function,
re-register the updated function if its checksum changed; then return the
current implementation from `_function_dict`. -/
def _get_latest_version_of_func {F : Type} (cfgService : ConfigService) (env : ReloadEnv F)
    (st : FuncState F) (moduleName qualname : String) : Except PyErr (FuncState F × F) := do
  let mut st := st
  if cfgService.reloadOnEdit ∧ moduleName ≠ "" then
    let old_checksum := (dictFind qualname st.checksums).getD 0
    let last_function_update_time := (dictFind qualname st.updateTimes).getD 0
    if env.currentModifiedTime > last_function_update_time then
      if let some updated_func := env.moduleFunc then
        let current_checksum := env.funcChecksum updated_func
        if current_checksum ≠ old_checksum then
          match _register_function st qualname updated_func current_checksum
              env.currentModifiedTime with
          | .ok st' => st := st'
          | .error e => throw ⟨.assertionError, e, 1, none⟩
  match dictFind qualname st.dict with
  | some f => return (st, f)
  | none => throw ⟨.keyError, qualname, 1, none⟩

/-! ## The change signal (`wrapped_is_changed`) -/

/-- The numbers `wrapped_is_changed` manipulates: Python ints and the
not-a-number float sentinel. -/
inductive PyNum
  | pint (n : Int)
  | pnan
deriving DecidableEq

/-- `math.isnan`. -/
def mathIsNan : PyNum → Bool
  | .pnan => true
  | .pint _ => false

/-- CPython `hash` on an int: reduction modulo `2^61 - 1`, sign preserved,
`-1` mapped to `-2`. -/
def pyHashInt (n : Int) : Int :=
  let m : Int := 2 ^ 61 - 1
  let h := if 0 ≤ n then n % m else -((-n) % m)
  if h = -1 then -2 else h

/-- CPython `hash` on the values the is-changed predicate returns.
`hash(float("nan"))` is an unspecified `int` (id-based on CPython >= 3.10,
`0` before), passed in as `nanHash`. -/
def pyHash (nanHash : Int) : PyNum → Int
  | .pint n => pyHashInt n
  | .pnan => nanHash

/-- `wrapped_is_changed` of the `ComfyNode` decorator (easy_nodes.py lines
820-858): on `always_run` return NaN; otherwise resolve the freshest
implementation, read its checksum, evaluate the caller-supplied
`is_changed` predicate (its value on the filtered kwargs is the parameter
`origIsChanged`; `none` models no predicate, giving `original_num = 0`),
then `original_num = hash(original_num)`, the `math.isnan` check, and
`current_checksum ^ original_num`. -/
def wrapped_is_changed {F : Type} (always_run : Bool) (cfgService : ConfigService)
    (env : ReloadEnv F) (st : FuncState F) (moduleName qualname : String)
    (origIsChanged : Option PyNum) (nanHash : Int) : Except PyErr PyNum := do
  if always_run then
    return .pnan
  let (st2, _updated_func) ← _get_latest_version_of_func cfgService env st moduleName qualname
  let current_checksum ←
    match dictFind qualname st2.checksums with
    | some c => pure c
    | none => throw (⟨.keyError, qualname, 1, none⟩ : PyErr)
  let original_num : PyNum :=
    match origIsChanged with
    | some v => .pint (pyHash nanHash v)
    | none => .pint 0
  match original_num with
  | .pnan => return .pnan        -- if math.isnan(original_num): return float("nan")
  | .pint n => return .pint (Int.xor current_checksum n)

/-! ## The generated node wrapper (`wrapper` inside the decorator) -/

/-- Everything the decorator closes over when it builds `wrapper`. -/
structure NodeCtx where
  param_names : List String
  required_inputs : List (String × PortSpec)
  hidden_inputs : List (String × HiddenSpec)
  optional_inputs : List (String × PortSpec)
  input_is_list_map : List (String × Bool)
  input_is_list : Bool
  adjusted_return_types : List String
  return_names : Option (List String)
  wrapped_name : String
  code_origin_loc : String
  is_cls_mth : Bool
  moduleName : String
  qualname : String

/-- The per-kwarg processing loop of `wrapper` (easy_nodes.py lines
925-960): capture `unique_id` into process state, drop kwargs that are not
declared parameters, optionally move tensors, apply the MASK unsqueeze
special case (a no-op on the modelled tensor-free universe), and apply
declared autoconversion.  Returns the processed kwargs and the captured
unique id. -/
def processKwargs (reg : Registry) (cfg : ENConfig) (ctx : NodeCtx)
    (kwargs : List (String × Val)) : Except PyErr (List (String × Val) × Option Val) := do
  let all_inputs := dictMerge ctx.required_inputs ctx.optional_inputs
  let mut newKwargs : List (String × Val) := []
  let mut uniqueId : Option Val := none
  for p in kwargs do
    let (key, arg0) := p
    if key = "unique_id" then
      uniqueId := some arg0
    if ctx.param_names.contains key then
      let arg1 := if cfg.auto_move_tensors then _move_all_tensors_to_device arg0 else arg0
      let arg2 ←
        match dictFind key all_inputs with
        | some spec => maybe_autoconvert reg spec.portT arg1
        | none => pure arg1
      newKwargs := dictInsert newKwargs key arg2
  return (newKwargs, uniqueId)

/-- The `input_is_list` unwrap step of `wrapper` (lines 974-982): when the
node takes list-shaped inputs but a parameter was not annotated as a list,
its (single-element) list is replaced by its only element; more than one
element is an assertion failure, and calling `len` on a non-sequence is a
`TypeError`. -/
def unwrapSingletonLists (ctx : NodeCtx) (kwargs : List (String × Val)) :
    Except PyErr (List (String × Val)) := do
  let mut kw := kwargs
  if ctx.input_is_list then
    for p in kwargs do
      if (dictFind p.1 ctx.input_is_list_map).getD false = false then
        match p.2 with
        | .vlist [x] => kw := dictInsert kw p.1 x
        | .vlist _ =>
            throw (⟨.assertionError, "Expected a single value for " ++ p.1, 1, none⟩ : PyErr)
        | _ => throw (⟨.raisedByFunction, "object has no len()", 1, none⟩ : PyErr)
  return kw

/-- `wrapper` of the `ComfyNode` decorator (easy_nodes.py lines 902-998):
process the kwargs, verify the non-hidden inputs, drop the bound `cls`
argument for classmethods, unwrap singleton lists, resolve the freshest
implementation, and hand off to `_call_function_and_verify_result`. -/
def wrapper_call (reg : Registry) (cfgService : ConfigService) (cfg : ENConfig)
    (ctx : NodeCtx) (env : ReloadEnv FuncV) (st : FuncState FuncV) (args : List Val)
    (kwargs : List (String × Val)) (pvInit : Preview) : Except PyErr Val := do
  let all_inputs := dictMerge ctx.required_inputs ctx.optional_inputs
  let (kwargs, _uniqueId) ← processKwargs reg cfg ctx kwargs
  -- input verification over the non-hidden supplied inputs
  let input_names := kwargs.filterMap
    (fun p => if (dictFind p.1 ctx.hidden_inputs).isNone then some p.1 else none)
  let inputPairs ← input_names.mapM (fun k => do
    let v ←
      match dictFind k kwargs with
      | some v => pure v
      | none => throw (⟨.keyError, k, 1, none⟩ : PyErr)
    let t ←
      match dictFind k all_inputs with
      | some spec => pure spec.portT
      | none => throw (⟨.keyError, k, 1, none⟩ : PyErr)
    pure (v, t))
  match _verify_values reg cfg "INPUT" inputPairs (some input_names) ctx.code_origin_loc with
  | .error s => throw (⟨.valueError, s, 1, none⟩ : PyErr)
  | .ok _ => pure ()
  -- for some reason self still gets passed with class methods
  let args := if ctx.is_cls_mth then args.drop 1 else args
  let kwargs ← unwrapSingletonLists ctx kwargs
  let (_, latest_func) ← _get_latest_version_of_func cfgService env st ctx.moduleName ctx.qualname
  _call_function_and_verify_result reg cfgService cfg ctx.adjusted_return_types
    ctx.return_names ctx.wrapped_name ctx.code_origin_loc
    (fun pv => latest_func args kwargs pv) pvInit

/-! ## Concrete instances used by several theorems -/

/-- The registry after `register_type(int, "INT")` on the freshly loaded
module (the standard numeric registration the end-to-end scenarios
assume). -/
def regINT : Registry :=
  { annToType := [("builtins.int", "INT")]
    shouldAutoconvert := [("str", true), ("builtins.int", false)]
    defaultForceInput := [("builtins.int", false)]
    typeToCls := [("INT", .tInt)]
    verifiers := [("INT", .subclassV .tInt)] }

/-- The configuration-service defaults: `llm_debugging` "Off",
`max_tries` 1, `ReloadOnEdit` off. -/
def cfgDefault : ConfigService := ⟨"Off", 1, false⟩

/-- The `EasyNodesConfig` fields at their `initialize_easy_nodes`
defaults: verify level WARN, no tensor auto-move. -/
def encfgDefault : ENConfig := ⟨.warn, false⟩

/-- The two host-reserved hidden ports every schema starts from. -/
def hiddenReserved : List (String × HiddenSpec) :=
  [("unique_id", .reserved "UNIQUE_ID"), ("extra_pnginfo", .reserved "EXTRA_PNGINFO")]

/-- The signature `(a: int = 3, b: int = 4)`. -/
def addParams : List (String × Ann × DefaultVal) :=
  [("a", .ty .tInt, .intV 3), ("b", .ty .tInt, .intV 4)]

/-- The port spec a plain numeric default `q` produces: the promoted
`NumberInput(q)` widget serialized with default settings. -/
def numberPort (typeName : String) (q : ℚ) : PortSpec :=
  .typed typeName [("default", .vfloat q), ("display", .vstr "number"), ("forceInput", .vbool false)]

/-- The required ports of the `(a: int = 3, b: int = 4)` node. -/
def requiredAdd : List (String × PortSpec) :=
  [("a", numberPort "INT" 3), ("b", numberPort "INT" 4)]

/-- The body `return a + b` as the call wrapper invokes it. -/
def addFn : FuncV := fun _args kwargs pv =>
  match dictFind "a" kwargs, dictFind "b" kwargs with
  | some (.vint a), some (.vint b) => .ok (.vint (a + b), pv)
  | _, _ => .error ⟨.raisedByFunction, "unsupported operand types", 1, none⟩

/-- The decorator closure for the `add` node, as computed from
`addParams` and the `-> int` return annotation. -/
def ctxAdd : NodeCtx :=
  { param_names := ["a", "b"]
    required_inputs := requiredAdd
    hidden_inputs := hiddenReserved
    optional_inputs := []
    input_is_list_map := [("a", false), ("b", false)]
    input_is_list := false
    adjusted_return_types := ["INT"]
    return_names := none
    wrapped_name := "add_comfynode_wrapper"
    code_origin_loc := "\n Source: add example.py:1"
    is_cls_mth := false
    moduleName := "example"
    qualname := "add" }

/-- The registration record for `add`. -/
def stAdd : FuncState FuncV := ⟨[("add", addFn)], [("add", 12345)], [("add", 100)]⟩

/-- A reload environment that is never consulted (live reload off). -/
def envAdd : ReloadEnv FuncV := ⟨0, none, fun _ => 0⟩

/-! ## Claims -/

/-- C3: registering `(a: int = 3, b: int = 4) -> int` returning `a + b`,
with `int` registered as the numeric port type `"INT"`, yields required
ports exactly `a` and `b` with widget defaults 3 and 4, no optional ports,
no hidden ports beyond the reserved `unique_id`/`extra_pnginfo`, and one
scalar output of the resolved numeric port type; invoking the wrapped node
with `a=5, b=7` returns `(12,)`. -/
theorem C3_end_to_end :
    register_type initialRegistry PyType.tInt (some "INT") false false false none false
      = Except.ok regINT
    ∧ _infer_input_types_from_annotations regINT addParams false
      = Except.ok ⟨requiredAdd, hiddenReserved, [], [("a", false), ("b", false)],
          [("a", .ty .tInt), ("b", .ty .tInt)]⟩
    ∧ _infer_return_types_from_annotations regINT (.fromAnn (.ty .tInt))
      = Except.ok (["INT"], [false])
    ∧ wrapper_call regINT cfgDefault encfgDefault ctxAdd envAdd stAdd []
        [("a", Val.vint 5), ("b", Val.vint 7)] []
      = Except.ok (.vtuple [.vint 12]) :=
  ⟨rfl, rfl, rfl, rfl⟩

/-- C2 (counterexample): a parameter `a: int = 3` — a concrete plain
primitive default — comes back from `_annotate_input` with
`is_optional = False` (the `optional` flag of the promoted `NumberInput`
flag), so signature inference classifies it as *required*, not optional:
the optional dict stays empty. -/
theorem C2_counterexample :
    _annotate_input regINT (Ann.ty .tInt) (.intV 3)
      = Except.ok (numberPort "INT" 3, false, false)
    ∧ _infer_input_types_from_annotations regINT [("a", .ty .tInt, .intV 3)] false
      = Except.ok ⟨[("a", numberPort "INT" 3)], hiddenReserved, [], [("a", false)],
          [("a", .ty .tInt)]⟩ :=
  ⟨rfl, rfl⟩

/-- C2 (amended): a plain primitive default (string, int, float) is
promoted to the corresponding widget with default settings, whose
`optional` flag is false, so the parameter is classified *required* while
still carrying the given default as its widget value; a widget-instance
default is optional exactly when its own flag says so; any other concrete
default (not the `None` sentinel, not absent, not a choice) is classified
optional with the default recorded in its metadata. -/
theorem C2_amended (reg : Registry) (ann : Ann) (tn : String)
    (h : _get_type_str reg ann = .ok tn) :
    (∀ s : String, _annotate_input reg ann (.strV s)
        = Except.ok (.typed tn (StringInputT.to_dict ⟨s, false, false, false, false⟩),
            false, false))
    ∧ (∀ n : Int, _annotate_input reg ann (.intV n)
        = Except.ok (.typed tn
            (NumberInputT.to_dict ⟨(n : ℚ), none, none, none, none, "number", false, false, false⟩),
            false, false))
    ∧ (∀ q : ℚ, _annotate_input reg ann (.floatV q)
        = Except.ok (.typed tn
            (NumberInputT.to_dict ⟨q, none, none, none, none, "number", false, false, false⟩),
            false, false))
    ∧ (∀ si : StringInputT, _annotate_input reg ann (.stringInput si)
        = Except.ok (.typed tn si.to_dict, si.optional, si.hidden))
    ∧ (∀ ni : NumberInputT, _annotate_input reg ann (.numberInput ni)
        = Except.ok (.typed tn ni.to_dict, ni.optional, ni.hidden))
    ∧ (∀ v : Val, _annotate_input reg ann (.otherV v)
        = Except.ok (.typed tn
            (if (dictFind (annKey ann) reg.defaultForceInput).getD false then
              dictInsert [("default", v)] "forceInput" (.vbool true)
            else [("default", v)]), true, false)) := by
  refine ⟨fun s => ?_, fun n => ?_, fun q => ?_, fun si => ?_, fun ni => ?_, fun v => ?_⟩ <;>
    · simp only [_annotate_input, h]
      rfl

/-- Witness for C2 (amended), at the registry with `int` registered as
`"INT"`: a plain `7` default is required with widget default 7, a
widget default with `optional=True` is optional, and a non-primitive
default (an empty tuple) is optional with the default recorded. -/
theorem C2_amended_witness :
    _annotate_input regINT (Ann.ty .tInt) (.intV 7)
      = Except.ok (.typed "INT"
          (NumberInputT.to_dict ⟨(7 : ℚ), none, none, none, none, "number", false, false, false⟩),
          false, false)
    ∧ _annotate_input regINT (Ann.ty .tInt)
        (.numberInput ⟨9, none, none, none, none, "number", true, false, false⟩)
      = Except.ok (.typed "INT"
          (NumberInputT.to_dict ⟨9, none, none, none, none, "number", true, false, false⟩),
          true, false)
    ∧ _annotate_input regINT (Ann.ty .tInt) (.otherV (.vtuple []))
      = Except.ok (.typed "INT" [("default", .vtuple [])], true, false) := by
  have h := C2_amended regINT (Ann.ty .tInt) "INT" rfl
  exact ⟨h.2.1 7, h.2.2.2.2.1 ⟨9, none, none, none, none, "number", true, false, false⟩,
    h.2.2.2.2.2 (.vtuple [])⟩

/-- A registration record for the change-signal theorems: one function
`"f"` with stored checksum 5 and update time 10. -/
def stC1 : FuncState Nat := ⟨[("f", 0)], [("f", 5)], [("f", 10)]⟩

/-- A reload environment that is never consulted (live reload off). -/
def envC1 : ReloadEnv Nat := ⟨0, none, fun _ => 0⟩

/-- C1: when the caller-supplied `is_changed` predicate returns the NaN
sentinel, `wrapped_is_changed` does *not* propagate NaN: the code runs
`original_num = hash(original_num)` before its `math.isnan` check, so the
check always sees an `int` and the function returns
`checksum ^ hash(nan)` — an ordinary integer — whatever int `hash(nan)`
happens to be. -/
theorem C1_nan_sentinel_hashed_not_propagated :
    (∀ nanHash : Int,
      wrapped_is_changed false cfgDefault envC1 stC1 "m" "f" (some .pnan) nanHash
        = Except.ok (.pint (Int.xor 5 nanHash)))
    ∧ (∀ nanHash : Int,
      wrapped_is_changed false cfgDefault envC1 stC1 "m" "f" (some .pnan) nanHash
        ≠ Except.ok PyNum.pnan) := by
  refine ⟨fun nanHash => rfl, fun nanHash h => ?_⟩
  rw [show wrapped_is_changed false cfgDefault envC1 stC1 "m" "f" (some .pnan) nanHash
      = Except.ok (.pint (Int.xor 5 nanHash)) from rfl] at h
  exact PyNum.noConfusion (Except.ok.inj h)

/-- C5: the retry guard of `_call_function_and_verify_result` compares the
*boolean* `llm_debugging_enabled` against the string `"AutoFix"`, which in
Python is always false, so `max_tries` is 1 for every configuration —
including AutoFix mode with `max_tries` 3, where a raising function is
attempted exactly once, annotated with its interesting-frame count
(`len(stack) - 1`), and re-raised. -/
theorem C5_autofix_never_retries :
    (∀ cfg : ConfigService, computedMaxTries cfg = 1)
    ∧ _call_function_and_verify_result regINT ⟨"AutoFix", 3, false⟩ encfgDefault ["INT"]
        none "w" "loc" (fun _ => .error ⟨.raisedByFunction, "boom", 4, none⟩) []
      = Except.error ⟨.raisedByFunction, "boom", 4, some 3⟩ :=
  ⟨fun _cfg => rfl, rfl⟩

/-- C4: an update for an already-registered function identity is accepted
exactly when its timestamp is strictly newer than the stored one and its
checksum differs from the stored one; either violation fails the
assertion, and an accepted update replaces the stored implementation
reference, checksum and timestamp. -/
theorem C4_live_update_record (F : Type) (st : FuncState F) (q : String) (f0 f : F)
    (ck0 ts0 ck ts : Int)
    (hd : dictFind q st.dict = some f0)
    (hc : dictFind q st.checksums = some ck0)
    (ht : dictFind q st.updateTimes = some ts0) :
    ((∃ st', _register_function st q f ck ts = .ok st') ↔ (ts0 < ts ∧ ck ≠ ck0))
    ∧ (∀ st', _register_function st q f ck ts = .ok st' →
        dictFind q st'.dict = some f ∧ dictFind q st'.checksums = some ck
          ∧ dictFind q st'.updateTimes = some ts) := by
  have hred : _register_function st q f ck ts =
      if ¬ (ts0 < ts) then
        .error ("Function " ++ q ++ " already registered with later timestamp!")
      else if ck0 = ck then
        .error ("Function " ++ q ++ " already registered with same checksum!")
      else
        .ok ⟨dictInsert st.dict q f, dictInsert st.checksums q ck,
          dictInsert st.updateTimes q ts⟩ := by
    simp [_register_function, hd, hc, ht]
  rw [hred]
  by_cases h1 : ts0 < ts
  · by_cases h2 : ck0 = ck
    · rw [if_neg (not_not_intro h1), if_pos h2]
      refine ⟨⟨fun hex => ?_, fun hok => ?_⟩, fun st' hEq => ?_⟩
      · obtain ⟨st', hEq⟩ := hex
        exact Except.noConfusion hEq
      · exact absurd h2.symm hok.2
      · exact Except.noConfusion hEq
    · rw [if_neg (not_not_intro h1), if_neg h2]
      refine ⟨⟨fun _ => ⟨h1, fun hh => h2 hh.symm⟩, fun _ => ⟨_, rfl⟩⟩, fun st' hEq => ?_⟩
      · obtain rfl := Except.ok.inj hEq
        exact ⟨dictFind_dictInsert_self _ _ _, dictFind_dictInsert_self _ _ _,
          dictFind_dictInsert_self _ _ _⟩
  · rw [if_pos h1]
    refine ⟨⟨fun hex => ?_, fun hok => absurd hok.1 h1⟩, fun st' hEq => ?_⟩
    · obtain ⟨st', hEq⟩ := hex
      exact Except.noConfusion hEq
    · exact Except.noConfusion hEq

/-- The registration record used by the C4 witness: `"f"` registered with
checksum 2 at time 5. -/
def stC4 : FuncState Nat := ⟨[("f", 1)], [("f", 2)], [("f", 5)]⟩

/-- Witness for C4: a strictly newer timestamp (8 > 5) with a different
checksum (3 ≠ 2) is accepted and replaces the record; an identical
checksum or an older-or-equal timestamp is rejected. -/
theorem C4_witness :
    (∃ st', _register_function stC4 "f" 9 3 8 = .ok st'
      ∧ dictFind "f" st'.dict = some 9 ∧ dictFind "f" st'.checksums = some 3
      ∧ dictFind "f" st'.updateTimes = some 8)
    ∧ ¬ (∃ st', _register_function stC4 "f" 9 2 8 = .ok st')
    ∧ ¬ (∃ st', _register_function stC4 "f" 9 3 5 = .ok st') := by
  have h1 := C4_live_update_record Nat stC4 "f" 1 9 2 5 3 8 rfl rfl rfl
  have h2 := C4_live_update_record Nat stC4 "f" 1 9 2 5 2 8 rfl rfl rfl
  have h3 := C4_live_update_record Nat stC4 "f" 1 9 2 5 3 5 rfl rfl rfl
  refine ⟨?_, ?_, ?_⟩
  · obtain ⟨st', hEq⟩ := h1.1.mpr ⟨by norm_num, by decide⟩
    exact ⟨st', hEq, h1.2 st' hEq⟩
  · intro hex
    exact absurd (h2.1.mp hex).2 (by simp)
  · intro hex
    exact absurd (h3.1.mp hex).1 (by norm_num)

/-- C9: `NumberInput` construction fails with a `ValueError` when the
default lies strictly below an explicitly given min or strictly above an
explicitly given max, and succeeds (recording the given fields) whenever
the default lies within the inclusive bounds or the bounds are omitted. -/
theorem C9_number_input_bounds (default : ℚ) (minB maxB stepB roundB : Option ℚ)
    (display : String) (optional hidden force_input : Bool) :
    (∀ m, minB = some m → default < m →
      ∃ msg, NumberInput_new default minB maxB stepB roundB display optional hidden force_input
        = .error msg)
    ∧ (∀ m, maxB = some m → m < default →
      ∃ msg, NumberInput_new default minB maxB stepB roundB display optional hidden force_input
        = .error msg)
    ∧ ((∀ m, minB = some m → m ≤ default) → (∀ m, maxB = some m → default ≤ m) →
      NumberInput_new default minB maxB stepB roundB display optional hidden force_input
        = .ok ⟨default, minB, maxB, stepB, roundB, display, optional, hidden, force_input⟩) := by
  refine ⟨?_, ?_, ?_⟩
  · rintro m rfl hlt
    refine ⟨"Value " ++ toString default ++ " is less than the minimum allowed.", ?_⟩
    simp [NumberInput_new, hlt]
  · rintro m rfl hgt
    by_cases hmincheck : minB.any (fun mm => default < mm) = true
    · refine ⟨"Value " ++ toString default ++ " is less than the minimum allowed.", ?_⟩
      simp only [NumberInput_new, hmincheck, if_true]
    · refine ⟨"Value " ++ toString default ++ " is greater than the maximum allowed.", ?_⟩
      have hmaxcheck : (some m).any (fun mm => mm < default) = true := by simp [hgt]
      unfold NumberInput_new
      rw [if_neg hmincheck, if_pos hmaxcheck]
  · intro hmin hmax
    have h1 : minB.any (fun mm => default < mm) = false := by
      cases minB with
      | none => rfl
      | some m => simpa using not_lt.mpr (hmin m rfl)
    have h2 : maxB.any (fun mm => mm < default) = false := by
      cases maxB with
      | none => rfl
      | some m => simpa using not_lt.mpr (hmax m rfl)
    simp [NumberInput_new, h1, h2]

/-- Witness for C9: `NumberInput(5, min=10)` and `NumberInput(5, max=2)`
fail, `NumberInput(3, min=1, max=7)` succeeds. -/
theorem C9_witness :
    (∃ msg, NumberInput_new 5 (some 10) none none none "number" false false false = .error msg)
    ∧ (∃ msg, NumberInput_new 5 none (some 2) none none "number" false false false = .error msg)
    ∧ NumberInput_new 3 (some 1) (some 7) none none "number" false false false
      = .ok ⟨3, some 1, some 7, none, none, "number", false, false, false⟩ := by
  have h1 := C9_number_input_bounds 5 (some 10) none none none "number" false false false
  have h2 := C9_number_input_bounds 5 none (some 2) none none "number" false false false
  have h3 := C9_number_input_bounds 3 (some 1) (some 7) none none "number" false false false
  exact ⟨h1.1 10 rfl (by norm_num), h2.2.1 2 rfl (by norm_num),
    h3.2.2 (by intro m hm; cases hm; norm_num) (by intro m hm; cases hm; norm_num)⟩

/-- Because `computedMaxTries` is 1 for every configuration, the call
wrapper performs exactly one attempt: it returns the result of that
attempt, or annotates and re-raises its exception. -/
theorem call_once (reg : Registry) (cfgService : ConfigService) (cfg : ENConfig)
    (rts : List String) (rn : Option (List String)) (wn loc : String)
    (run : Preview → Except PyErr (Val × Preview)) (pvInit : Preview) :
    _call_function_and_verify_result reg cfgService cfg rts rn wn loc run pvInit =
      match attemptBody reg cfg rts rn wn loc run pvInit with
      | .ok v => .ok v
      | .error e => .error (annotateErr e) := by
  show callLoop reg cfg rts rn wn loc run pvInit (computedMaxTries cfgService).toNat = _
  have h : (computedMaxTries cfgService).toNat = 1 := rfl
  rw [h]
  show (match attemptBody reg cfg rts rn wn loc run pvInit with
    | .ok v => Except.ok v
    | .error e => if (0 : Nat) = 0 then .error (annotateErr e)
        else callLoop reg cfg rts rn wn loc run pvInit 0) = _
  cases attemptBody reg cfg rts rn wn loc run pvInit with
  | ok v => rfl
  | error e => rfl

/-- C6: a runtime value that fails its registered port-type validator
makes the invocation raise (the formatted diagnostic with the originating
source location) before the result is handed back under the `fatal`
policy, while under the `off` policy the same invocation completes
normally with the plain result. -/
theorem C6_verify_policy (reg : Registry) (cfgService : ConfigService)
    (tname pname wn loc emsg : String) (ver : Verifier) (v : Val)
    (hver : dictFind tname reg.verifiers = some ver)
    (hfail : recursive_verify ver v = .error emsg)
    (hnn : v.isNone = false)
    (hconv : (dictFind tname reg.shouldAutoconvert).getD false = false) :
    _call_function_and_verify_result reg cfgService ⟨.fatal, false⟩ [tname] (some [pname])
        wn loc (fun _ => .ok (.vtuple [v], [])) []
      = .error ⟨.valueError, verifyErrorStr "OUTPUT" (quotedName pname) emsg loc, 1, some 0⟩
    ∧ _call_function_and_verify_result reg cfgService ⟨.off, false⟩ [tname] (some [pname])
        wn loc (fun _ => .ok (.vtuple [v], [])) []
      = .ok (.vtuple [v]) := by
  have hfatal : _verify_values reg ⟨.fatal, false⟩ "OUTPUT" [(v, .ptName tname)]
      (some [pname]) loc = .error (verifyErrorStr "OUTPUT" (quotedName pname) emsg loc) := by
    simp only [_verify_values, verifyLoop, hnn, hver, hfail]
    rfl
  have hoff : _verify_values reg ⟨.off, false⟩ "OUTPUT" [(v, .ptName tname)]
      (some [pname]) loc = .ok () := by
    simp only [_verify_values, verifyLoop, hnn, hver]
    rfl
  have hac : maybe_autoconvert reg (.ptName tname) v = .ok v := by
    simp only [maybe_autoconvert, hconv]
    rfl
  constructor
  · rw [call_once]
    simp only [attemptBody, List.map_cons, List.map_nil, List.zip_cons_cons,
      List.zip_nil_right, hfatal]
    rfl
  · rw [call_once]
    simp only [attemptBody, List.map_cons, List.map_nil, List.zip_cons_cons,
      List.zip_nil_right, hoff]
    have hmap : List.mapM.loop (fun p => maybe_autoconvert reg (PortT.ptName p.2) p.1)
        [(v, tname)] [] = Except.ok [v] := by
      simp [List.mapM.loop, hac]
    simp [hmap]

/-- Witness for C6: the value `"x"` fails the canonical `INT` validator
(`SubclassVerifier(int)`); under the fatal policy the invocation raises
the formatted diagnostic, under the off policy it returns `("x",)`. -/
theorem C6_witness :
    _call_function_and_verify_result regINT cfgDefault ⟨.fatal, false⟩ ["INT"] (some ["a"])
        "w" "loc" (fun _ => .ok (.vtuple [.vstr "x"], [])) []
      = .error ⟨.valueError,
          verifyErrorStr "OUTPUT" (quotedName "a")
            "Expected a int, but got received a value (x) of type str." "loc", 1, some 0⟩
    ∧ _call_function_and_verify_result regINT cfgDefault ⟨.off, false⟩ ["INT"] (some ["a"])
        "w" "loc" (fun _ => .ok (.vtuple [.vstr "x"], [])) []
      = .ok (.vtuple [.vstr "x"]) :=
  C6_verify_policy regINT cfgDefault "INT" "a" "w" "loc"
    "Expected a int, but got received a value (x) of type str."
    (.subclassV .tInt) (.vstr "x") rfl rfl rfl rfl

/-- C8: a node with zero declared outputs requires the wrapped function to
return `None` — anything else fails the hard arity contract — and a
successful `None`-returning invocation hands the 1-tuple `(None,)` back to
the host. -/
theorem C8_zero_output (reg : Registry) (cfgService : ConfigService) (cfg : ENConfig)
    (rn : Option (List String)) (wn loc : String)
    (run : Preview → Except PyErr (Val × Preview)) (v : Val) (pv : Preview)
    (hrun : run ([] : Preview) = .ok (v, pv)) :
    (v = .vnone →
      _call_function_and_verify_result reg cfgService cfg [] rn wn loc run []
        = .ok (.vtuple [.vnone]))
    ∧ (v.isNone = false →
      _call_function_and_verify_result reg cfgService cfg [] rn wn loc run []
        = .error (annotateErr ⟨.assertionError,
            wn ++ ": Return value is not None, but no return type specified.\n" ++ loc,
            1, none⟩)) := by
  constructor
  · rintro rfl
    rw [call_once]
    simp only [attemptBody, hrun]
    rfl
  · intro hnn
    rw [call_once]
    simp only [attemptBody, hrun, hnn]
    rfl

/-- Witness for C8: a zero-output node returning `None` yields `(None,)`;
one returning `3` raises the annotated assertion error. -/
theorem C8_witness :
    _call_function_and_verify_result regINT cfgDefault encfgDefault [] none "w" "loc"
        (fun pv => .ok (.vnone, pv)) []
      = .ok (.vtuple [.vnone])
    ∧ _call_function_and_verify_result regINT cfgDefault encfgDefault [] none "w" "loc"
        (fun pv => .ok (.vint 3, pv)) []
      = .error (annotateErr ⟨.assertionError,
          "w" ++ ": Return value is not None, but no return type specified.\n" ++ "loc",
          1, none⟩) :=
  ⟨(C8_zero_output regINT cfgDefault encfgDefault none "w" "loc"
      (fun pv => .ok (.vnone, pv)) .vnone [] rfl).1 rfl,
   (C8_zero_output regINT cfgDefault encfgDefault none "w" "loc"
      (fun pv => .ok (.vint 3, pv)) (.vint 3) [] rfl).2 rfl⟩

/-- C7: the first registration under a port-type name stores the supplied
validator (or the default `SubclassVerifier`) as canonical; any later
registration under that name leaves the canonical validator and class
untouched while still recording the auto-convert and
force-input flags. -/
theorem C7_first_validator_wins :
    (∀ (reg : Registry) (cls : PyType) (name : String) (ac fi : Bool) (v : Option Verifier),
      (dictFind name reg.typeToCls).isSome = true →
      dictFind (_get_fully_qualified_name cls) reg.annToType = none →
      ∃ reg', register_type reg cls (some name) ac false fi v false = .ok reg'
        ∧ reg'.verifiers = reg.verifiers
        ∧ reg'.typeToCls = reg.typeToCls
        ∧ dictFind (_get_fully_qualified_name cls) reg'.annToType = some name
        ∧ dictFind (_get_fully_qualified_name cls) reg'.shouldAutoconvert = some ac
        ∧ dictFind (_get_fully_qualified_name cls) reg'.defaultForceInput = some fi)
    ∧ (∀ (reg : Registry) (cls : PyType) (name : String) (ac fi : Bool) (v : Option Verifier),
      dictFind name reg.typeToCls = none →
      dictFind (_get_fully_qualified_name cls) reg.annToType = none →
      ∃ reg', register_type reg cls (some name) ac false fi v false = .ok reg'
        ∧ dictFind name reg'.verifiers = some (v.getD (.subclassV cls))
        ∧ dictFind name reg'.typeToCls = some cls) := by
  constructor
  · intro reg cls name ac fi v hSome hkey
    obtain ⟨c, hc⟩ := Option.isSome_iff_exists.mp hSome
    refine ⟨{ reg with
        annToType := dictInsert reg.annToType (_get_fully_qualified_name cls) name
        shouldAutoconvert := dictInsert reg.shouldAutoconvert (_get_fully_qualified_name cls) ac
        defaultForceInput := dictInsert reg.defaultForceInput (_get_fully_qualified_name cls) fi },
      ?_, rfl, rfl, dictFind_dictInsert_self _ _ _, dictFind_dictInsert_self _ _ _,
      dictFind_dictInsert_self _ _ _⟩
    simp [register_type, hkey, hc]
  · intro reg cls name ac fi v hNone hkey
    refine ⟨{ annToType := dictInsert reg.annToType (_get_fully_qualified_name cls) name
              shouldAutoconvert :=
                dictInsert reg.shouldAutoconvert (_get_fully_qualified_name cls) ac
              defaultForceInput :=
                dictInsert reg.defaultForceInput (_get_fully_qualified_name cls) fi
              typeToCls := dictInsert reg.typeToCls name cls
              verifiers := dictInsert reg.verifiers name (v.getD (.subclassV cls)) },
      ?_, dictFind_dictInsert_self _ _ _, dictFind_dictInsert_self _ _ _⟩
    simp [register_type, hkey, hNone]

/-- The registry after a first registration of `str` under the port name
`"STRING"` with an explicit `TypeVerifier`. -/
def regSTR1 : Registry :=
  { annToType := [("builtins.str", "STRING")]
    shouldAutoconvert := [("str", true), ("builtins.str", false)]
    defaultForceInput := [("builtins.str", false)]
    typeToCls := [("STRING", .tStr)]
    verifiers := [("STRING", .typeV [.tStr])] }

/-- Witness for C7: registering `str` as `"STRING"` stores its
`TypeVerifier`; a second native type `m.S` registered under `"STRING"`
with a different verifier leaves the canonical verifier untouched but
records its own auto-convert and force-input flags. -/
theorem C7_witness :
    (∃ reg1, register_type initialRegistry PyType.tStr (some "STRING") false false false
        (some (.typeV [.tStr])) false = .ok reg1
      ∧ dictFind "STRING" reg1.verifiers = some (.typeV [.tStr])
      ∧ dictFind "STRING" reg1.typeToCls = some .tStr)
    ∧ (∃ reg2, register_type regSTR1 (.tCustom "m" "S") (some "STRING") true false true
        (some .anythingV) false = .ok reg2
      ∧ reg2.verifiers = regSTR1.verifiers
      ∧ dictFind "m.S" reg2.shouldAutoconvert = some true
      ∧ dictFind "m.S" reg2.defaultForceInput = some true) := by
  constructor
  · exact C7_first_validator_wins.2 initialRegistry .tStr "STRING" false false
      (some (.typeV [.tStr])) rfl rfl
  · obtain ⟨reg2, h1, h2, _h3, _h4, h5, h6⟩ := C7_first_validator_wins.1 regSTR1
      (.tCustom "m" "S") "STRING" true true (some .anythingV) rfl rfl
    exact ⟨reg2, h1, h2, h5, h6⟩

/-- C10 (counterexample): a zero-output node whose body produces a preview
entry (`show_text`) and returns `None` does *not* get its result wrapped
in a `{ui, result}` payload: the zero-output early return yields the bare
`(None,)` even though the invocation produced preview entries. -/
theorem C10_counterexample :
    show_text ([] : Preview) "hello" = [("text", .vlist [.vstr "hello"])]
    ∧ _call_function_and_verify_result regINT cfgDefault encfgDefault [] none "w" "loc"
        (fun pv => .ok (.vnone, show_text pv "hello")) []
      = .ok (.vtuple [.vnone]) :=
  ⟨rfl, rfl⟩

/-- C10 (amended): the call wrapper clears the process-wide preview buffer
at the start of every invocation, so its outcome is independent of preview
entries left over from earlier invocations (they never appear in a later
result); for a node with at least one declared output a successful result
is wrapped as a `{ui, result}` payload exactly when the invocation itself
produced preview entries, while a zero-output node returns the bare
`(None,)` without wrapping. -/
theorem C10_preview_wrapping (reg : Registry) (cfgService : ConfigService) (cfg : ENConfig)
    (rts : List String) (rn : Option (List String)) (wn loc : String)
    (run : Preview → Except PyErr (Val × Preview)) (v : Val) (pv1 : Preview)
    (hrun : run ([] : Preview) = .ok (v, pv1)) :
    (∀ pvInit pvInit' : Preview,
      _call_function_and_verify_result reg cfgService cfg rts rn wn loc run pvInit
        = _call_function_and_verify_result reg cfgService cfg rts rn wn loc run pvInit')
    ∧ (∀ out, _call_function_and_verify_result reg cfgService cfg rts rn wn loc run [] = .ok out →
        ((∃ kvs, out = .vdict kvs) ↔ (pv1.isEmpty = false ∧ rts ≠ [])))
    ∧ (pv1.isEmpty = false → rts ≠ [] →
        ∀ out, _call_function_and_verify_result reg cfgService cfg rts rn wn loc run [] = .ok out →
          ∃ t, out = .vdict [("ui", .vdict pv1), ("result", .vtuple t)]) := by
  refine ⟨fun pvInit pvInit' => rfl, ?_, ?_⟩
  · intro out hout
    rcases hA : attemptBody reg cfg rts rn wn loc run [] with e | w
    · rw [call_once, hA] at hout
      exact Except.noConfusion hout
    · rw [call_once, hA] at hout
      obtain rfl := Except.ok.inj hout
      cases rts with
      | nil =>
        simp only [attemptBody, hrun, List.length_nil, if_pos rfl] at hA
        by_cases hv : v.isNone = true
        · rw [if_pos hv] at hA
          obtain rfl := Except.ok.inj hA
          simp
        · rw [if_neg hv] at hA
          exact Except.noConfusion hA
      | cons rt rts' =>
        simp only [attemptBody, hrun] at hA
        rw [if_neg (by simp)] at hA
        repeat' split at hA
        all_goals try exact Except.noConfusion hA
        all_goals obtain rfl := Except.ok.inj hA
        all_goals simp_all
  · intro hpv hrts out hout
    rcases hA : attemptBody reg cfg rts rn wn loc run [] with e | w
    · rw [call_once, hA] at hout
      exact Except.noConfusion hout
    · rw [call_once, hA] at hout
      obtain rfl := Except.ok.inj hout
      cases rts with
      | nil => exact absurd rfl hrts
      | cons rt rts' =>
        simp only [attemptBody, hrun] at hA
        rw [if_neg (by simp)] at hA
        repeat' split at hA
        all_goals try exact Except.noConfusion hA
        all_goals obtain rfl := Except.ok.inj hA
        all_goals first
          | exact ⟨_, rfl⟩
          | simp_all

/-- Witness for C10 (amended): a one-output node whose body emits a text
preview gets its successful result wrapped as a `{ui, result}` payload
carrying exactly that preview. -/
theorem C10_witness :
    ∃ t, (fun out => out = Val.vdict
        [("ui", .vdict [("text", .vlist [.vstr "hi"])]), ("result", .vtuple t)])
      ((_call_function_and_verify_result regINT cfgDefault encfgDefault ["INT"] none "w" "loc"
        (fun pv => .ok (.vint 1, show_text pv "hi")) []).toOption.getD .vnone) := by
  have h := (C10_preview_wrapping regINT cfgDefault encfgDefault ["INT"] none "w" "loc"
    (fun pv => .ok (.vint 1, show_text pv "hi")) (.vint 1)
    [("text", .vlist [.vstr "hi"])] rfl).2.2 rfl (by simp)
    ((_call_function_and_verify_result regINT cfgDefault encfgDefault ["INT"] none "w" "loc"
      (fun pv => .ok (.vint 1, show_text pv "hi")) []).toOption.getD .vnone) rfl
  exact h

end EasyNodes
